import Mathlib

/-!
Shallow embedding of `src/main.py` (class `RealLLMFunctionCalling`):
a function-calling chat assistant with five tool adapters, a dispatcher
(`execute_function_call`) and a retry-based orchestration loop
(`chat_with_function_calling`).

External effects (HTTP providers, the model endpoint, SMTP, `json.loads`,
`datetime.now`) are modelled as explicit environment parameters; the Python
control flow (try/except branches, dict construction, loop structure) is
translated directly.
-/

namespace FnCall

/-- JSON-like structured values: the payloads flowing between adapters,
providers and the conversation history (Python dict/list/str/num/bool/None). -/
inductive JsonV : Type where
  | null : JsonV
  | bool (b : Bool) : JsonV
  | num (q : ℚ) : JsonV
  | str (s : String) : JsonV
  | arr (xs : List JsonV) : JsonV
  | obj (fields : List (String × JsonV)) : JsonV

/-- An argument mapping as passed to `execute_function_call`
(a Python dict parsed from the model's JSON argument string). -/
def Args : Type := List (String × JsonV)

/-- The uniform result envelope every adapter returns: a Python dict with key
`"success"` and (in the source, depending on the branch) a `"data"` or an
`"error"` key.  `data = none` models the absence of the `"data"` key. -/
structure ToolResult : Type where
  success : Bool
  data : Option JsonV
  error : Option String

/-- The dict `{"success": True, "data": d}` as built at every adapter success site. -/
def mkOk (d : JsonV) : ToolResult := ⟨true, some d, none⟩

/-- The dict `{"success": False, "error": e}` as built at every failure site. -/
def mkErr (e : String) : ToolResult := ⟨false, none, some e⟩

/-- Well-formedness of a result envelope: `success` determines which of
`data`/`error` is populated, and exactly one of them is. -/
def WFResult (r : ToolResult) : Prop :=
  (r.success = true → r.data.isSome = true ∧ r.error.isNone = true) ∧
  (r.success = false → r.error.isSome = true ∧ r.data.isNone = true)

instance (r : ToolResult) : Decidable (WFResult r) := by
  unfold WFResult; infer_instance

/-- Outcome of calling one bound adapter method `function_map[name](**arguments)`
in Python: a normal return, a `TypeError` (raised by keyword-argument binding
on malformed/missing/extra argument keys), or any other escaping exception. -/
inductive AdapterOutcome : Type where
  | ret (r : ToolResult) : AdapterOutcome
  | typeError (msg : String) : AdapterOutcome
  | exn (msg : String) : AdapterOutcome

/-- The five bound methods of `function_map` in `execute_function_call`,
abstracted over their runtime behaviour (each is a Python callable whose
invocation with a keyword-argument dict can return or raise). -/
structure FunctionBindings : Type where
  get_real_weather : Args → AdapterOutcome
  search_news : Args → AdapterOutcome
  analyze_stock : Args → AdapterOutcome
  send_email : Args → AdapterOutcome
  send_message_with_weixin : Args → AdapterOutcome

/-- The `function_map` dict literal of `execute_function_call`
(src/main.py lines 399-405): name → bound method, `none` for a missing key. -/
def function_map (B : FunctionBindings) (name : String) :
    Option (Args → AdapterOutcome) :=
  if name = "get_real_weather" then some B.get_real_weather
  else if name = "search_news" then some B.search_news
  else if name = "analyze_stock" then some B.analyze_stock
  else if name = "send_email" then some B.send_email
  else if name = "send_message_with_weixin" then some B.send_message_with_weixin
  else none

/-- Dispatcher `execute_function_call` (src/main.py lines 391-428): unknown name →
`未知函数` error; otherwise call the bound method inside try/except, mapping a
`TypeError` to `函数参数错误` and any other exception to `函数执行异常`. -/
def execute_function_call (B : FunctionBindings) (function_name : String)
    (arguments : Args) : ToolResult :=
  match function_map B function_name with
  | none => mkErr ("未知函数: " ++ function_name)
  | some f =>
    match f arguments with
    | .ret r => r
    | .typeError e => mkErr ("函数参数错误: " ++ e)
    | .exn e => mkErr ("函数执行异常: " ++ e)

/-! ### Python-level failures inside adapter bodies -/

/-- The exception classes an adapter body can raise while parsing a provider
response (the distinctions the source's `except` clauses make). -/
inductive PyErr : Type where
  | requestError (msg : String) : PyErr
  | keyError (key : String) : PyErr
  | typeError (msg : String) : PyErr
  | indexError (msg : String) : PyErr
  | other (msg : String) : PyErr

/-- Python `str(e)` for an exception: a `KeyError` prints the repr of the missing key
(quoted), the others print their message. -/
def PyErr.str : PyErr → String
  | .requestError m => m
  | .keyError k => "'" ++ k ++ "'"
  | .typeError m => m
  | .indexError m => m
  | .other m => m

/-- Python `d[k]` on a parsed-JSON value: a `KeyError` when the key is absent,
a `TypeError` when the value is not a dict. -/
def getItem (v : JsonV) (k : String) : Except PyErr JsonV :=
  match v with
  | .obj fs =>
    match fs.lookup k with
    | some x => .ok x
    | none => .error (.keyError k)
  | _ => .error (.typeError "object is not subscriptable")

/-- Python `lst[i]` on a parsed-JSON value (non-negative index). -/
def getIdx (v : JsonV) (i : ℕ) : Except PyErr JsonV :=
  match v with
  | .arr xs =>
    match xs.get? i with
    | some x => .ok x
    | none => .error (.indexError "list index out of range")
  | _ => .error (.typeError "object is not subscriptable")

/-- Python `d.get(k, dflt)` on a dict (never raises on a dict). -/
def dictGet (fs : List (String × JsonV)) (k : String) (dflt : JsonV) : JsonV :=
  (fs.lookup k).getD dflt

/-- Python truthiness of a parsed-JSON value. -/
def truthy : JsonV → Bool
  | .null => false
  | .bool b => b
  | .num q => decide (q ≠ 0)
  | .str s => decide (s ≠ "")
  | .arr xs => !xs.isEmpty
  | .obj fs => !fs.isEmpty

/-- Python `round(x, 1)` restricted to numbers; raises `TypeError` otherwise.
(Python rounds floats half-to-even; the rounding mode is irrelevant to every
claim, so the integer rounding of `round : ℚ → ℤ` stands in for it.) -/
def round1J (v : JsonV) : Except PyErr JsonV :=
  match v with
  | .num q => .ok (.num ((round (q * 10) : ℤ) / 10 : ℚ))
  | _ => .error (.typeError "type not supported by round")

/-- Python `round(x, 2)` on a number (same rounding caveat as `round1J`). -/
def round2 (q : ℚ) : ℚ := ((round (q * 100) : ℤ) / 100 : ℚ)

/-- Python `v / 1000` on a parsed-JSON value; `TypeError` unless numeric. -/
def divThousand (v : JsonV) : Except PyErr JsonV :=
  match v with
  | .num q => .ok (.num (q / 1000))
  | _ => .error (.typeError "unsupported operand type for /")

/-! ### Weather adapter (`get_real_weather`, src/main.py lines 153-209) -/

/-- Outcome of `requests.get(...)` followed by `raise_for_status()` and
`.json()`: a `RequestException` (network failure, timeout or HTTP error
status), a body that fails JSON decoding, or a decoded JSON body. -/
inductive HttpOutcome : Type where
  | requestExn (msg : String) : HttpOutcome
  | jsonExn (msg : String) : HttpOutcome
  | ok (body : JsonV) : HttpOutcome

/-- External world of the weather adapter: the HTTP GET outcome as a function
of the query parameters, and `datetime.now()` formatted. -/
structure WeatherEnv : Type where
  http : List (String × String) → HttpOutcome
  apiKey : String
  now : String

/-- The `params` dict of the weather GET request. -/
def weatherParams (env : WeatherEnv) (city units : String) :
    List (String × String) :=
  [("q", city), ("appid", env.apiKey), ("units", units), ("lang", "zh_cn")]

/-- The body of `get_real_weather`'s `try` block: request, parse the fields of
`weather_info` in source order, propagating any raised exception. -/
def weatherBody (env : WeatherEnv) (city units : String) :
    Except PyErr JsonV := do
  match env.http (weatherParams env city units) with
  | .requestExn m => throw (.requestError m)
  | .jsonExn m => throw (.other m)
  | .ok data =>
    let name ← getItem data "name"
    let sys ← getItem data "sys"
    let country ← getItem sys "country"
    let main ← getItem data "main"
    let temperature ← round1J (← getItem main "temp")
    let feels ← round1J (← getItem main "feels_like")
    let humidity ← getItem main "humidity"
    let pressure ← getItem main "pressure"
    let description ← getItem (← getIdx (← getItem data "weather") 0) "description"
    let windSpeed ← getItem (← getItem data "wind") "speed"
    let fields ←
      match data with
      | .obj fs =>
        let visRaw := dictGet fs "visibility" (.str "未知")
        if truthy (dictGet fs "visibility" .null) then
          (divThousand visRaw).map (fun vis => some vis)
        else
          pure (none : Option JsonV)
      | _ => throw (.typeError "object has no attribute get")
    let visibility := fields.getD (.str "未知")
    pure (.obj
      [("city", name), ("country", country), ("temperature", temperature),
       ("feels_like", feels), ("humidity", humidity), ("pressure", pressure),
       ("description", description), ("wind_speed", windSpeed),
       ("visibility", visibility),
       ("units", .str (if units = "metric" then "°C" else "°F")),
       ("timestamp", .str env.now)])

/-- Adapter `get_real_weather` (src/main.py lines 153-209): run the body; the three
`except` clauses map a `RequestException`, a `KeyError` and any other
exception to the three failure envelopes. -/
def get_real_weather (env : WeatherEnv) (city : String)
    (units : String := "metric") : ToolResult :=
  match weatherBody env city units with
  | .ok info => mkOk info
  | .error (.requestError m) => mkErr ("网络请求失败: " ++ m)
  | .error (.keyError k) => mkErr ("API响应格式错误: " ++ (PyErr.keyError k).str)
  | .error e => mkErr ("未知错误: " ++ e.str)

/-! ### News adapter (`search_news`, src/main.py lines 211-259) -/

/-- The `params` dict of the news GET request (src/main.py lines 221-227).
Note: the `category` argument of `search_news` is never placed here. -/
structure NewsParams : Type where
  q : String
  apiKey : String
  language : String
  sortBy : String
  pageSize : ℕ

/-- External world of the news adapter. -/
structure NewsEnv : Type where
  http : NewsParams → HttpOutcome
  apiKey : String
  now : String

/-- Build the news request from the adapter's arguments. -/
def newsParams (env : NewsEnv) (query country : String) : NewsParams :=
  { q := query, apiKey := env.apiKey,
    language := if country = "cn" then "zh" else "en",
    sortBy := "publishedAt", pageSize := 5 }

/-- Python `lst[:5]` after checking the value is a list (iterating a non-list
raises `TypeError`). -/
def sliceTake5 (v : JsonV) : Except PyErr (List JsonV) :=
  match v with
  | .arr xs => .ok (xs.take 5)
  | _ => .error (.typeError "object is not iterable")

/-- Field extraction for one article in the news loop body. -/
def newsArticle (article : JsonV) : Except PyErr JsonV := do
  let title ← getItem article "title"
  let description ← getItem article "description"
  let url ← getItem article "url"
  let source ← getItem (← getItem article "source") "name"
  let publishedAt ← getItem article "publishedAt"
  pure (.obj [("title", title), ("description", description), ("url", url),
              ("source", source), ("published_at", publishedAt)])

/-- The body of `search_news`'s `try` block. -/
def newsBody (env : NewsEnv) (query country : String) :
    Except PyErr JsonV := do
  match env.http (newsParams env query country) with
  | .requestExn m => throw (.requestError m)
  | .jsonExn m => throw (.other m)
  | .ok data =>
    match data with
    | .obj fs =>
      let raw ← sliceTake5 (dictGet fs "articles" (.arr []))
      let articles ← raw.mapM newsArticle
      pure (.obj
        [("query", .str query),
         ("total_results", dictGet fs "totalResults" (.num 0)),
         ("articles", .arr articles),
         ("timestamp", .str env.now)])
    | _ => throw (.typeError "object has no attribute get")

/-- Adapter `search_news` (src/main.py lines 211-259): the single `except Exception`
clause maps every raised error to one failure envelope.  The `category`
argument is accepted but never used by the body. -/
def search_news (env : NewsEnv) (query : String)
    (category : String := "general") (country : String := "cn") : ToolResult :=
  match newsBody env query country with
  | .ok data => mkOk data
  | .error e => mkErr ("新闻搜索失败: " ++ e.str)

/-! ### Stock adapter (`analyze_stock`, src/main.py lines 261-318) -/

/-- One row of the fetched price history (one OHLCV bar of
`stock.history(period)`). -/
structure Bar : Type where
  close : ℚ
  high : ℚ
  low : ℚ
  volume : ℚ

/-- External world of the stock adapter for one call: whether
`import yfinance` succeeds, any exception raised by the `yf.Ticker` /
`.info` / `.history` provider calls, the `info` dict, the fetched history
for the requested period, and `datetime.now()` formatted. -/
structure StockEnv : Type where
  yfAvailable : Bool
  fetchExn : Option String
  info : List (String × JsonV)
  hist : List Bar
  now : String

/-- pandas `series.iloc[-k]` (k ≥ 1): the k-th element from the end, `none`
when the series is shorter than `k` (pandas raises
`IndexError: single positional indexer is out-of-bounds`). -/
def ilocNeg (xs : List ℚ) (k : ℕ) : Option ℚ :=
  if k ≤ xs.length then xs.get? (xs.length - k) else none

/-- pandas `series.max()` on a non-empty series (0 is a junk value for the
empty series, which the source never reaches). -/
def seriesMax : List ℚ → ℚ
  | [] => 0
  | x :: xs => xs.foldl max x

/-- pandas `series.min()` on a non-empty series. -/
def seriesMin : List ℚ → ℚ
  | [] => 0
  | x :: xs => xs.foldl min x

/-- The success payload `analysis_result` of `analyze_stock`
(src/main.py lines 289-302), given the already-extracted observations.
(`price_change_percent` divides by the prior close with rational division;
Python's float division only differs when that close is exactly 0, where it
produces `inf` instead of raising.) -/
def stockPayload (env : StockEnv) (symbol period : String)
    (current_price prevClose volume : ℚ) : JsonV :=
  .obj
    [("symbol", .str symbol),
     ("company_name", dictGet env.info "longName" (.str symbol)),
     ("current_price", .num (round2 current_price)),
     ("price_change", .num (round2 (current_price - prevClose))),
     ("price_change_percent",
       .num (round2 ((current_price - prevClose) / prevClose * 100))),
     ("volume", .num volume),
     ("market_cap", dictGet env.info "marketCap" .null),
     ("pe_ratio", dictGet env.info "trailingPE" .null),
     ("52_week_high", .num (round2 (seriesMax (env.hist.map Bar.high)))),
     ("52_week_low", .num (round2 (seriesMin (env.hist.map Bar.low)))),
     ("analysis_period", .str period),
     ("timestamp", .str env.now)]

/-- Adapter `analyze_stock` (src/main.py lines 261-318): dependency check, fetch,
empty-history check, then the statistics; `hist['Close'].iloc[-2]` raises
`IndexError` on a length-1 history, which falls into the generic
`except Exception` clause. -/
def analyze_stock (env : StockEnv) (symbol : String)
    (period : String := "1mo") : ToolResult :=
  if env.yfAvailable = false then
    mkErr "需要安装yfinance库：pip install yfinance"
  else
    match env.fetchExn with
    | some m => mkErr ("股票分析失败: " ++ m)
    | none =>
      if env.hist.isEmpty then
        mkErr ("未找到股票代码 " ++ symbol ++ " 的数据")
      else
        match ilocNeg (env.hist.map Bar.close) 1,
              ilocNeg (env.hist.map Bar.close) 2,
              ilocNeg (env.hist.map Bar.volume) 1 with
        | some current_price, some prevClose, some volume =>
          mkOk (stockPayload env symbol period current_price prevClose volume)
        | _, _, _ =>
          mkErr "股票分析失败: single positional indexer is out-of-bounds"

/-! ### Email adapter (`send_email`, src/main.py lines 320-365) -/

/-- External world of the email adapter: the outcome of the SMTP session
(connect, `starttls`, `login`, `send_message` — any failure raises), and
`datetime.now()` formatted. -/
structure EmailEnv : Type where
  smtp : Except String Unit
  now : String

/-- Adapter `send_email` (src/main.py lines 320-365): one `except Exception` clause
wraps every transport/auth/protocol failure. -/
def send_email (env : EmailEnv) («to» subject : String)
    (content : String) : ToolResult :=
  match env.smtp with
  | .ok _ =>
    mkOk (.obj [("to", .str «to»), ("subject", .str subject),
                ("sent_at", .str env.now), ("message", .str "邮件发送成功")])
  | .error m => mkErr ("邮件发送失败: " ++ m)

/-! ### Weixin adapter (`send_message_with_weixin`, src/main.py lines 367-389) -/

/-- External world of the weixin adapter: the outcome of its console I/O
(the source's `try` body can only fail if printing raises), and
`datetime.now()` formatted. -/
structure WeixinEnv : Type where
  io : Except String Unit
  now : String

/-- Adapter `send_message_with_weixin` (src/main.py lines 367-389). -/
def send_message_with_weixin (env : WeixinEnv) (user_name : String)
    (content : String) : ToolResult :=
  match env.io with
  | .ok _ =>
    mkOk (.obj [("user_name", .str user_name), ("sent_at", .str env.now),
                ("message", .str "信息发送成功")])
  | .error m => mkErr ("信息发送失败: " ++ m)

/-! ### Orchestration loop (`chat_with_function_calling`, src/main.py 430-546) -/

/-- One tool-invocation request of a model response (`tool_call.id`,
`tool_call.type`, `tool_call.function.name`,
`tool_call.function.arguments` — the arguments a raw JSON string).
When appending to history, the source rebuilds this record field by field
(lines 471-481), which is the identity on its four fields. -/
structure ToolCall : Type where
  id : String
  type : String
  name : String
  arguments : String

/-- Outcome of one `client.chat.completions.create` call: a message (content
and possibly-empty tool-call list), or one of the three exception classes the
loop distinguishes (`openai.RateLimitError`, `openai.APITimeoutError`,
anything else). -/
inductive ModelOutcome : Type where
  | reply (content : Option String) (tool_calls : List ToolCall) : ModelOutcome
  | rateLimit : ModelOutcome
  | timeout : ModelOutcome
  | failure (msg : String) : ModelOutcome

/-- One entry of `conversation_history`, mirroring the four dict shapes the
source appends: `{"role": "user", ...}`, `{"role": "assistant", "content"}`,
`{"role": "assistant", "content", "tool_calls"}`, and `{"role": "tool",
"content", "tool_call_id"}`.  A tool turn's content is
`json.dumps(function_result)`; the structured `ToolResult` stands in for
that string. -/
inductive Msg : Type where
  | user (content : String) : Msg
  | assistant (content : Option String) : Msg
  | assistantToolCalls (content : Option String) (tool_calls : List ToolCall) : Msg
  | tool (result : ToolResult) (tool_call_id : String) : Msg

/-- External world of one `chat_with_function_calling` run: the outcome of
the n-th model API call (0-based, counting both call shapes in order),
Python's `json.loads` on a raw argument string (an `Except` because a
malformed string raises), and the five bound tool methods. -/
structure ChatEnv : Type where
  oracle : ℕ → ModelOutcome
  json_loads : String → Except String Args
  bindings : FunctionBindings

/-- The mutable state the loop threads: the conversation history, how many
model API calls were made, the `time.sleep` durations in order, and a log of
the `execute_function_call` invocations actually performed (observable tool
side effects, in order). -/
@[ext]
structure ChatState : Type where
  history : List Msg
  calls : ℕ
  waits : List ℕ
  dispatched : List (String × Args)

/-- The apology returned by the generic `except Exception` clause
(src/main.py line 544). -/
def apologyMsg (e : String) : String := "抱歉，我遇到了技术问题：" ++ e

/-- The fixed message returned when the retry budget is exhausted
(src/main.py line 546). -/
def fallbackMsg : String := "抱歉，在多次尝试后仍无法完成您的请求，请稍后再试。"

/-- The `for tool_call in assistant_message.tool_calls` body (src/main.py
lines 485-497): parse the raw arguments, execute, append a tool turn.  A
`json.loads` failure raises out of the whole `try` block into the generic
handler, so it aborts the batch and is returned as `some` apology; `none`
means the batch completed. -/
def processToolCalls (env : ChatEnv) :
    List ToolCall → ChatState → ChatState × Option String
  | [], s => (s, none)
  | tc :: rest, s =>
    match env.json_loads tc.arguments with
    | .error e => (s, some (apologyMsg e))
    | .ok args =>
      let r := execute_function_call env.bindings tc.name args
      processToolCalls env rest
        { s with history := s.history ++ [Msg.tool r tc.id],
                 dispatched := s.dispatched ++ [(tc.name, args)] }

/-- The `while retry_count < max_retries` loop of `chat_with_function_calling`
(src/main.py lines 446-546), with `rc` the current `retry_count` and `fuel`
the number of loop iterations still permitted (`max_retries - retry_count`;
both retryable handlers increment the shared counter, so `fuel` decreases
exactly when `rc` increases).  Returns the final state and the Python return
value (`none` models returning Python `None` content). -/
def chatLoop (env : ChatEnv) : ℕ → ℕ → ChatState → ChatState × Option String
  | _, 0, s => (s, some fallbackMsg)
  | rc, fuel + 1, s =>
    let s0 : ChatState := { s with calls := s.calls + 1 }
    match env.oracle s.calls with
    | .rateLimit =>
      chatLoop env (rc + 1) fuel { s0 with waits := s0.waits ++ [2 ^ (rc + 1)] }
    | .timeout =>
      chatLoop env (rc + 1) fuel s0
    | .failure e => (s0, some (apologyMsg e))
    | .reply content tcs =>
      if tcs.isEmpty then
        ({ s0 with history := s0.history ++ [Msg.assistant content] }, content)
      else
        let s1 : ChatState :=
          { s0 with history := s0.history ++ [Msg.assistantToolCalls content tcs] }
        match processToolCalls env tcs s1 with
        | (s2, some apology) => (s2, some apology)
        | (s2, none) =>
          let s3 : ChatState := { s2 with calls := s2.calls + 1 }
          match env.oracle s2.calls with
          | .reply content2 _ =>
            ({ s3 with history := s3.history ++ [Msg.assistant content2] },
             content2)
          | .rateLimit =>
            chatLoop env (rc + 1) fuel
              { s3 with waits := s3.waits ++ [2 ^ (rc + 1)] }
          | .timeout => chatLoop env (rc + 1) fuel s3
          | .failure e => (s3, some (apologyMsg e))

/-- The state on entering the loop: the user turn appended (src/main.py
lines 439-442), no calls made, no sleeps, no dispatches. -/
def initState (history : List Msg) (user_message : String) : ChatState :=
  { history := history ++ [Msg.user user_message], calls := 0, waits := [],
    dispatched := [] }

/-- Entry point `chat_with_function_calling` (src/main.py lines 430-546). -/
def chat_with_function_calling (env : ChatEnv) (user_message : String)
    (max_retries : ℕ := 3) (history : List Msg := []) :
    ChatState × Option String :=
  chatLoop env 0 max_retries (initState history user_message)

/-! ### Derived notions and test fixtures -/

/-- The arguments `json.loads` yields for a tool call when it succeeds
(`[]` is a junk value for the failing case, never used under the success
hypotheses of the theorems below). -/
def loadsD (env : ChatEnv) (tc : ToolCall) : Args :=
  match env.json_loads tc.arguments with
  | .ok a => a
  | .error _ => []

/-- The tool-result turn the loop appends for one invocation. -/
def toolTurnOf (env : ChatEnv) (tc : ToolCall) : Msg :=
  Msg.tool (execute_function_call env.bindings tc.name (loadsD env tc)) tc.id

/-- The dispatch-log entry for one invocation. -/
def dispatchOf (env : ChatEnv) (tc : ToolCall) : String × Args :=
  (tc.name, loadsD env tc)

/-- A binding map whose five methods all behave the same way (test fixture). -/
def constBindings (o : AdapterOutcome) : FunctionBindings :=
  ⟨fun _ => o, fun _ => o, fun _ => o, fun _ => o, fun _ => o⟩

/-- Fixtures for evaluating the adapters at concrete inputs. -/
def testWeatherEnv : WeatherEnv :=
  { http := fun _ => .requestExn "Connection timed out", apiKey := "k",
    now := "2026-10-12 00:00:00" }

def testNewsEnv : NewsEnv :=
  { http := fun _ => .ok (.obj [("totalResults", .num 0), ("articles", .arr [])]),
    apiKey := "k", now := "2026-10-12 00:00:00" }

def testStockEnv : StockEnv :=
  { yfAvailable := true, fetchExn := none, info := [],
    hist := [{ close := 1, high := 2, low := 0, volume := 3 },
             { close := 2, high := 3, low := 1, volume := 4 }],
    now := "2026-10-12 00:00:00" }

def testEmailEnv : EmailEnv := { smtp := .ok (), now := "2026-10-12 00:00:00" }

def testWeixinEnv : WeixinEnv := { io := .ok (), now := "2026-10-12 00:00:00" }

/-- A length-1 fetched history, with yfinance available. -/
def oneBarStockEnv : StockEnv :=
  { yfAvailable := true, fetchExn := none, info := [],
    hist := [{ close := 100, high := 110, low := 90, volume := 5 }],
    now := "2026-10-12 00:00:00" }

/-- A yfinance-missing environment. -/
def noYfStockEnv : StockEnv :=
  { yfAvailable := false, fetchExn := none, info := [], hist := [],
    now := "2026-10-12 00:00:00" }

/-- A chat environment whose model endpoint always behaves the same way
(test fixture). -/
def constOracleChatEnv (o : ModelOutcome) : ChatEnv :=
  { oracle := fun _ => o, json_loads := fun _ => .ok [],
    bindings := constBindings (.ret (mkOk .null)) }

/-- A concrete tool invocation requested by a stubbed model. -/
def testToolCall : ToolCall :=
  { id := "call_1", type := "function", name := "get_real_weather",
    arguments := "city-payload" }

/-- The argument mapping the stubbed parser yields for `testToolCall`. -/
def testArgs : Args := [("city", JsonV.str "北京")]

/-- A chat environment: first model call requests one tool invocation, the
second call answers. -/
def toolRoundChatEnv : ChatEnv :=
  { oracle := fun n =>
      if n = 0 then .reply none [testToolCall] else .reply (some "完成") [],
    json_loads := fun _ => .ok testArgs,
    bindings := constBindings (.ret (mkOk .null)) }

/-- A chat environment whose second model call is rate-limited, after which
the model repeats the same tool request and then answers. -/
def retryRLChatEnv : ChatEnv :=
  { oracle := fun n =>
      if n = 1 then .rateLimit
      else if n = 3 then .reply (some "完成") []
      else .reply none [testToolCall],
    json_loads := fun _ => .ok testArgs,
    bindings := constBindings (.ret (mkOk .null)) }

/-- A chat environment whose first model call requests one tool invocation
and whose second (final-answer) call raises a generic, non-retryable
failure. -/
def failAfterToolChatEnv : ChatEnv :=
  { oracle := fun n =>
      if n = 0 then .reply none [testToolCall] else .failure "boom",
    json_loads := fun _ => .ok testArgs,
    bindings := constBindings (.ret (mkOk .null)) }

/-- Like `retryRLChatEnv`, but the second model call times out. -/
def retryTOChatEnv : ChatEnv :=
  { oracle := fun n =>
      if n = 1 then .timeout
      else if n = 3 then .reply (some "完成") []
      else .reply none [testToolCall],
    json_loads := fun _ => .ok testArgs,
    bindings := constBindings (.ret (mkOk .null)) }

/-! ## Helper lemmas -/

theorem wf_mkOk (d : JsonV) : WFResult (mkOk d) := by
  constructor <;> intro h <;> simp_all [mkOk]

theorem wf_mkErr (e : String) : WFResult (mkErr e) := by
  constructor <;> intro h <;> simp_all [mkErr]

theorem foldl_max_mem (xs : List ℚ) (x : ℚ) : xs.foldl max x ∈ x :: xs := by
  induction xs generalizing x with
  | nil => simp
  | cons y ys ih =>
    rw [List.foldl_cons]
    rcases List.mem_cons.mp (ih (max x y)) with h | h
    · rcases max_choice x y with he | he
      · rw [h, he]; exact List.mem_cons_self _ _
      · rw [h, he]; exact List.mem_cons_of_mem _ (List.mem_cons_self _ _)
    · exact List.mem_cons_of_mem _ (List.mem_cons_of_mem _ h)

theorem le_foldl_max (xs : List ℚ) (x : ℚ) :
    ∀ q ∈ x :: xs, q ≤ xs.foldl max x := by
  induction xs generalizing x with
  | nil => intro q hq; simp at hq; simp [hq]
  | cons y ys ih =>
    intro q hq
    rcases List.mem_cons.mp hq with rfl | hq
    · exact le_trans (le_max_left q y) (ih (max q y) _ (List.mem_cons_self _ _))
    · rcases List.mem_cons.mp hq with rfl | hq
      · exact le_trans (le_max_right x q) (ih (max x q) _ (List.mem_cons_self _ _))
      · exact ih (max x y) q (List.mem_cons_of_mem _ hq)

theorem foldl_min_mem (xs : List ℚ) (x : ℚ) : xs.foldl min x ∈ x :: xs := by
  induction xs generalizing x with
  | nil => simp
  | cons y ys ih =>
    rw [List.foldl_cons]
    rcases List.mem_cons.mp (ih (min x y)) with h | h
    · rcases min_choice x y with he | he
      · rw [h, he]; exact List.mem_cons_self _ _
      · rw [h, he]; exact List.mem_cons_of_mem _ (List.mem_cons_self _ _)
    · exact List.mem_cons_of_mem _ (List.mem_cons_of_mem _ h)

theorem foldl_min_le (xs : List ℚ) (x : ℚ) :
    ∀ q ∈ x :: xs, xs.foldl min x ≤ q := by
  induction xs generalizing x with
  | nil => intro q hq; simp at hq; simp [hq]
  | cons y ys ih =>
    intro q hq
    rcases List.mem_cons.mp hq with rfl | hq
    · exact le_trans (ih (min q y) _ (List.mem_cons_self _ _)) (min_le_left q y)
    · rcases List.mem_cons.mp hq with rfl | hq
      · exact le_trans (ih (min x q) _ (List.mem_cons_self _ _)) (min_le_right x q)
      · exact ih (min x y) q (List.mem_cons_of_mem _ hq)

/-- The value `seriesMax` of a non-empty series is an element of it. -/
theorem seriesMax_mem (xs : List ℚ) (h : xs ≠ []) : seriesMax xs ∈ xs := by
  cases xs with
  | nil => simp at h
  | cons x ys => exact foldl_max_mem ys x

/-- The value `seriesMax` bounds every element of the series. -/
theorem le_seriesMax (xs : List ℚ) : ∀ q ∈ xs, q ≤ seriesMax xs := by
  cases xs with
  | nil => simp
  | cons x ys => exact le_foldl_max ys x

/-- The value `seriesMin` of a non-empty series is an element of it. -/
theorem seriesMin_mem (xs : List ℚ) (h : xs ≠ []) : seriesMin xs ∈ xs := by
  cases xs with
  | nil => simp at h
  | cons x ys => exact foldl_min_mem ys x

/-- The value `seriesMin` is below every element of the series. -/
theorem seriesMin_le (xs : List ℚ) : ∀ q ∈ xs, seriesMin xs ≤ q := by
  cases xs with
  | nil => simp
  | cons x ys => exact foldl_min_le ys x

theorem function_map_constBindings (o : AdapterOutcome) (n : String)
    (f : Args → AdapterOutcome) (h : function_map (constBindings o) n = some f) :
    f = fun _ => o := by
  unfold function_map constBindings at h
  split_ifs at h
  all_goals injection h with h
  all_goals exact h.symm

theorem wf_get_real_weather (env : WeatherEnv) (city units : String) :
    WFResult (get_real_weather env city units) := by
  unfold get_real_weather
  cases h : weatherBody env city units with
  | ok d => exact wf_mkOk d
  | error e => cases e <;> exact wf_mkErr _

theorem wf_search_news (env : NewsEnv) (q cat co : String) :
    WFResult (search_news env q cat co) := by
  unfold search_news
  cases h : newsBody env q co with
  | ok d => exact wf_mkOk d
  | error e => exact wf_mkErr _

theorem wf_analyze_stock (env : StockEnv) (sym period : String) :
    WFResult (analyze_stock env sym period) := by
  unfold analyze_stock
  repeat' split
  all_goals first | exact wf_mkErr _ | exact wf_mkOk _

theorem wf_send_email (env : EmailEnv) (a s c : String) :
    WFResult (send_email env a s c) := by
  unfold send_email
  cases env.smtp with
  | ok u => exact wf_mkOk _
  | error m => exact wf_mkErr _

theorem wf_send_message_with_weixin (env : WeixinEnv) (un c : String) :
    WFResult (send_message_with_weixin env un c) := by
  unfold send_message_with_weixin
  cases env.io with
  | ok u => exact wf_mkOk _
  | error m => exact wf_mkErr _

/-- Unfolding of `execute_function_call` at a name resolved by the map. -/
theorem execute_function_call_known (B : FunctionBindings) (name : String)
    (args : Args) (f : Args → AdapterOutcome)
    (hf : function_map B name = some f) :
    execute_function_call B name args =
      (match f args with
       | .ret r => r
       | .typeError e => mkErr ("函数参数错误: " ++ e)
       | .exn e => mkErr ("函数执行异常: " ++ e)) := by
  unfold execute_function_call
  rw [hf]

theorem wf_execute_function_call (B : FunctionBindings) (name : String)
    (args : Args)
    (hB : ∀ n f a r, function_map B n = some f → f a = .ret r → WFResult r) :
    WFResult (execute_function_call B name args) := by
  cases hm : function_map B name with
  | none =>
    unfold execute_function_call
    rw [hm]
    exact wf_mkErr _
  | some f =>
    rw [execute_function_call_known B name args f hm]
    cases hf : f args with
    | ret r => exact hB name f args r hm hf
    | typeError e => exact wf_mkErr _
    | exn e => exact wf_mkErr _

/-! ## Claim theorems -/

/-- C2: for every tool name present in `function_map` and arbitrary argument
mapping, `execute_function_call` returns (never raises): an adapter call that
returns propagates its result; one that raises `TypeError` yields
`success=false` with the argument-error message; any other escaping exception
yields `success=false` with the generic execution-error message. -/
theorem dispatch_contains_adapter_faults (B : FunctionBindings) (name : String)
    (args : Args) (f : Args → AdapterOutcome)
    (hf : function_map B name = some f) :
    (∀ r, f args = .ret r → execute_function_call B name args = r) ∧
    (∀ e, f args = .typeError e →
      execute_function_call B name args = mkErr ("函数参数错误: " ++ e)) ∧
    (∀ e, f args = .exn e →
      execute_function_call B name args = mkErr ("函数执行异常: " ++ e)) := by
  refine ⟨?_, ?_, ?_⟩ <;> intro v hv <;>
    rw [execute_function_call_known B name args f hf, hv]

theorem dispatch_contains_adapter_faults_witness :
    execute_function_call
        (constBindings (.typeError "missing a required argument"))
        "get_real_weather" [] =
      mkErr ("函数参数错误: " ++ "missing a required argument") ∧
    execute_function_call (constBindings (.exn "boom")) "send_email" [] =
      mkErr ("函数执行异常: " ++ "boom") ∧
    execute_function_call (constBindings (.ret (mkOk .null)))
        "analyze_stock" [] = mkOk .null :=
  ⟨(dispatch_contains_adapter_faults _ "get_real_weather" [] _ rfl).2.1 _ rfl,
   (dispatch_contains_adapter_faults _ "send_email" [] _ rfl).2.2 _ rfl,
   (dispatch_contains_adapter_faults _ "analyze_stock" [] _ rfl).1 _ rfl⟩

/-- C7: for a tool name outside the five-entry `function_map` and arbitrary
arguments, `execute_function_call` returns the unknown-function failure, and
its result does not depend on the bound adapters (no adapter is invoked). -/
theorem dispatch_unknown_function (B B' : FunctionBindings) (name : String)
    (args args' : Args)
    (h : name ∉ (["get_real_weather", "search_news", "analyze_stock",
                  "send_email", "send_message_with_weixin"] : List String)) :
    function_map B name = none ∧
    execute_function_call B name args = mkErr ("未知函数: " ++ name) ∧
    execute_function_call B name args = execute_function_call B' name args' := by
  simp only [List.mem_cons, List.not_mem_nil, or_false, not_or] at h
  obtain ⟨h1, h2, h3, h4, h5⟩ := h
  have hm : ∀ C : FunctionBindings, function_map C name = none := by
    intro C; unfold function_map; simp [h1, h2, h3, h4, h5]
  refine ⟨hm B, ?_, ?_⟩ <;> unfold execute_function_call
  · rw [hm B]
  · rw [hm B, hm B']

theorem dispatch_unknown_function_witness :
    execute_function_call (constBindings (.ret (mkOk .null))) "fly_to_moon"
        [] = mkErr ("未知函数: " ++ "fly_to_moon") ∧
    execute_function_call (constBindings (.ret (mkOk .null))) "fly_to_moon"
        [] =
      execute_function_call (constBindings (.exn "boom")) "fly_to_moon"
        [("x", .null)] :=
  ⟨(dispatch_unknown_function (constBindings (.ret (mkOk .null)))
      (constBindings (.exn "boom")) "fly_to_moon" [] [("x", .null)]
      (by decide)).2.1,
   (dispatch_unknown_function (constBindings (.ret (mkOk .null)))
      (constBindings (.exn "boom")) "fly_to_moon" [] [("x", .null)]
      (by decide)).2.2⟩

/-- C9: every result envelope produced by any of the five adapters, and by
`execute_function_call` whenever its bound adapters only return well-formed
envelopes, carries `success` and exactly one of `data`/`error`: on
`success=true` a data payload and no error, on `success=false` an error
message and no data. -/
theorem tool_results_well_formed :
    (∀ env city units, WFResult (get_real_weather env city units)) ∧
    (∀ env q cat co, WFResult (search_news env q cat co)) ∧
    (∀ env sym period, WFResult (analyze_stock env sym period)) ∧
    (∀ env a s c, WFResult (send_email env a s c)) ∧
    (∀ env un c, WFResult (send_message_with_weixin env un c)) ∧
    (∀ B name args,
      (∀ n f a r, function_map B n = some f → f a = .ret r → WFResult r) →
      WFResult (execute_function_call B name args)) :=
  ⟨wf_get_real_weather, wf_search_news, wf_analyze_stock, wf_send_email,
   wf_send_message_with_weixin, wf_execute_function_call⟩

theorem tool_results_well_formed_witness :
    WFResult (get_real_weather testWeatherEnv "北京" "metric") ∧
    WFResult (search_news testNewsEnv "AI" "general" "cn") ∧
    WFResult (analyze_stock testStockEnv "AAPL" "1mo") ∧
    WFResult (send_email testEmailEnv "a@b.c" "主题" "正文") ∧
    WFResult (send_message_with_weixin testWeixinEnv "crush" "晚安") ∧
    WFResult (execute_function_call (constBindings (.ret (mkOk .null)))
      "search_news" []) :=
  ⟨tool_results_well_formed.1 _ _ _,
   tool_results_well_formed.2.1 _ _ _ _,
   tool_results_well_formed.2.2.1 _ _ _,
   tool_results_well_formed.2.2.2.1 _ _ _ _,
   tool_results_well_formed.2.2.2.2.1 _ _ _,
   tool_results_well_formed.2.2.2.2.2 _ _ _ (by
     intro n f a r hm hf
     rw [function_map_constBindings _ _ _ hm] at hf
     cases hf
     exact wf_mkOk _)⟩

/-- C10: the result of `search_news` is independent of its `category`
argument: the request builder `newsParams` takes no category input at all
(mirroring the source, which never references `category` in the body), so two
calls differing only in `category` are literally the same computation. -/
theorem search_news_independent_of_category (env : NewsEnv)
    (query category category' country : String) :
    search_news env query category country =
      search_news env query category' country := rfl

/-- Lookup `iloc[-1]` of a mapped non-empty history is the mapped last bar. -/
theorem ilocNeg_map_getLast (f : Bar → ℚ) (l : List Bar) (h : l ≠ []) :
    ilocNeg (l.map f) 1 = some (f (l.getLast h)) := by
  have hpos : 0 < l.length := List.length_pos.mpr h
  have hlt : l.length - 1 < l.length := by omega
  unfold ilocNeg
  rw [List.length_map, if_pos (by omega), List.get?_map,
    List.get?_eq_get hlt, List.getLast_eq_get]
  rfl

/-- Lookup `iloc[-2]` of a mapped history with at least two bars is the mapped
second-to-last bar. -/
theorem ilocNeg_map_two (f : Bar → ℚ) (l : List Bar)
    (h2 : 2 ≤ l.length) (hlt : l.length - 2 < l.length) :
    ilocNeg (l.map f) 2 = some (f (l.get ⟨l.length - 2, hlt⟩)) := by
  unfold ilocNeg
  rw [List.length_map, if_pos (by omega), List.get?_map,
    List.get?_eq_get hlt]
  rfl

/-- Lookup `iloc[-2]` of a mapped length-1 history is out of bounds. -/
theorem ilocNeg_map_two_singleton (f : Bar → ℚ) (b : Bar) :
    ilocNeg ([b].map f) 2 = none := by
  unfold ilocNeg
  simp

/-- C8 counterexample: a call with yfinance available and a non-empty fetched
price history (one observation) returns `success=false` with the generic
stock-analysis-failure message (the `iloc[-2]` lookup raises `IndexError`),
not the `success=true` result the claim requires for every non-empty
history. -/
theorem analyze_stock_singleton_history_fails :
    oneBarStockEnv.yfAvailable = true ∧ oneBarStockEnv.hist ≠ [] ∧
    (analyze_stock oneBarStockEnv "AAPL" "1mo").success = false ∧
    analyze_stock oneBarStockEnv "AAPL" "1mo" =
      mkErr "股票分析失败: single positional indexer is out-of-bounds" :=
  ⟨rfl, by simp [oneBarStockEnv], rfl, rfl⟩

/-- C8 (amended): `analyze_stock` returns the dependency-missing error when
yfinance is unavailable; the not-found error on an empty fetched history; the
generic stock-analysis-failure error on a one-observation history (no prior
observation to diff against — pandas raises `IndexError`); and, on a history
of at least two observations, `success=true` with the latest close as current
price, the absolute and percentage change computed against the immediately
prior close, and the window extrema — `seriesMax` of the highs being an
attained upper bound and `seriesMin` of the lows an attained lower bound. -/
theorem analyze_stock_behaviour (env : StockEnv) (symbol period : String) :
    (env.yfAvailable = false →
      analyze_stock env symbol period =
        mkErr "需要安装yfinance库：pip install yfinance") ∧
    (∀ m, env.yfAvailable = true → env.fetchExn = some m →
      analyze_stock env symbol period = mkErr ("股票分析失败: " ++ m)) ∧
    (env.yfAvailable = true → env.fetchExn = none → env.hist = [] →
      analyze_stock env symbol period =
        mkErr ("未找到股票代码 " ++ symbol ++ " 的数据")) ∧
    (∀ b, env.yfAvailable = true → env.fetchExn = none → env.hist = [b] →
      analyze_stock env symbol period =
        mkErr "股票分析失败: single positional indexer is out-of-bounds") ∧
    (∀ (_hyf : env.yfAvailable = true) (_hfe : env.fetchExn = none)
      (h2 : 2 ≤ env.hist.length) (hne : env.hist ≠ [])
      (hlt : env.hist.length - 2 < env.hist.length),
      analyze_stock env symbol period =
        mkOk (stockPayload env symbol period (env.hist.getLast hne).close
          (env.hist.get ⟨env.hist.length - 2, hlt⟩).close
          (env.hist.getLast hne).volume) ∧
      seriesMax (env.hist.map Bar.high) ∈ env.hist.map Bar.high ∧
      (∀ q ∈ env.hist.map Bar.high, q ≤ seriesMax (env.hist.map Bar.high)) ∧
      seriesMin (env.hist.map Bar.low) ∈ env.hist.map Bar.low ∧
      (∀ q ∈ env.hist.map Bar.low, seriesMin (env.hist.map Bar.low) ≤ q)) := by
  refine ⟨?_, ?_, ?_, ?_, ?_⟩
  · intro hyf
    unfold analyze_stock
    rw [if_pos hyf]
  · intro m hyf hfe
    unfold analyze_stock
    rw [hyf, hfe]
    rfl
  · intro hyf hfe hnil
    unfold analyze_stock
    rw [hyf, hfe, hnil]
    rfl
  · intro b hyf hfe hone
    unfold analyze_stock
    rw [hyf, hfe, hone]
    rfl
  · intro hyf hfe h2 hne hlt
    have hmapne : env.hist.map Bar.high ≠ [] := by
      simp [List.map_eq_nil, hne]
    have hmapne' : env.hist.map Bar.low ≠ [] := by
      simp [List.map_eq_nil, hne]
    refine ⟨?_, seriesMax_mem _ hmapne, le_seriesMax _,
      seriesMin_mem _ hmapne', seriesMin_le _⟩
    unfold analyze_stock
    rw [hyf, hfe, ilocNeg_map_getLast Bar.close env.hist hne,
      ilocNeg_map_two Bar.close env.hist h2 hlt,
      ilocNeg_map_getLast Bar.volume env.hist hne]
    have hni : env.hist.isEmpty = false := by
      cases h : env.hist with
      | nil => exact absurd h hne
      | cons a l => rfl
    rw [hni]
    rfl

/-- When every argument string in the batch parses, the dispatch pass appends
one tool turn per invocation, in invocation order, and dispatches each
invocation once, in the same order. -/
theorem processToolCalls_ok (env : ChatEnv) (tcs : List ToolCall)
    (hp : ∀ tc ∈ tcs, ∃ a, env.json_loads tc.arguments = .ok a) :
    ∀ s, processToolCalls env tcs s =
      ({ s with history := s.history ++ tcs.map (toolTurnOf env),
                dispatched := s.dispatched ++ tcs.map (dispatchOf env) },
       none) := by
  induction tcs with
  | nil => intro s; simp [processToolCalls]
  | cons tc rest ih =>
    intro s
    obtain ⟨a, ha⟩ := hp tc (List.mem_cons_self _ _)
    simp only [processToolCalls, ha]
    rw [ih (fun tc' h' => hp tc' (List.mem_cons_of_mem _ h'))]
    simp only [List.map_cons]
    refine congrArg (fun st => (st, none)) ?_
    ext : 1 <;> simp [toolTurnOf, dispatchOf, loadsD, ha]

/-- One loop iteration in which the first model call requests tools, every
argument string parses, and the second model call returns a message: the
iteration appends the assistant turn carrying the batch verbatim, one tool
turn per invocation in order, and the final assistant turn, makes two model
calls, and returns the second call's content. -/
theorem chatLoop_tool_round (env : ChatEnv) (rc fuel : ℕ) (s : ChatState)
    (c : Option String) (tcs : List ToolCall) (c2 : Option String)
    (tcs2 : List ToolCall)
    (h1 : env.oracle s.calls = .reply c tcs) (hne : tcs ≠ [])
    (hp : ∀ tc ∈ tcs, ∃ a, env.json_loads tc.arguments = .ok a)
    (h2 : env.oracle (s.calls + 1) = .reply c2 tcs2) :
    chatLoop env rc (fuel + 1) s =
      ({ s with
         history := s.history ++ Msg.assistantToolCalls c tcs ::
           (tcs.map (toolTurnOf env) ++ [Msg.assistant c2]),
         calls := s.calls + 2,
         dispatched := s.dispatched ++ tcs.map (dispatchOf env) }, c2) := by
  have hni : tcs.isEmpty = false := by
    cases tcs with
    | nil => exact absurd rfl hne
    | cons a l => rfl
  simp only [chatLoop, h1, hni, Bool.false_eq_true, if_false,
    processToolCalls_ok env tcs hp, h2]
  refine congrArg (fun st => (st, c2)) ?_
  ext : 1 <;> simp

/-- One loop iteration in which the first model call requests tools, the
batch is dispatched, and the second model call is rate-limited: the appended
turns and the dispatch log survive into the next iteration, which restarts
from the first model call with the shared attempt counter incremented and a
`2 ^ (retry_count + 1)` wait recorded. -/
theorem chatLoop_tool_round_rateLimit (env : ChatEnv) (rc fuel : ℕ)
    (s : ChatState) (c : Option String) (tcs : List ToolCall)
    (h1 : env.oracle s.calls = .reply c tcs) (hne : tcs ≠ [])
    (hp : ∀ tc ∈ tcs, ∃ a, env.json_loads tc.arguments = .ok a)
    (h2 : env.oracle (s.calls + 1) = .rateLimit) :
    chatLoop env rc (fuel + 1) s =
      chatLoop env (rc + 1) fuel
        { s with
          history := s.history ++ Msg.assistantToolCalls c tcs ::
            tcs.map (toolTurnOf env),
          calls := s.calls + 2,
          waits := s.waits ++ [2 ^ (rc + 1)],
          dispatched := s.dispatched ++ tcs.map (dispatchOf env) } := by
  have hni : tcs.isEmpty = false := by
    cases tcs with
    | nil => exact absurd rfl hne
    | cons a l => rfl
  simp only [chatLoop, h1, hni, Bool.false_eq_true, if_false,
    processToolCalls_ok env tcs hp, h2]
  congr 1
  ext : 1 <;> simp

/-- When every model call is rate-limited, the loop burns its whole budget,
sleeping `2 ^ (retry_count + 1)` after each failed attempt. -/
theorem chatLoop_all_rateLimit (env : ChatEnv)
    (h : ∀ n, env.oracle n = .rateLimit) :
    ∀ fuel rc s, chatLoop env rc fuel s =
      ({ s with
         calls := s.calls + fuel,
         waits := s.waits ++
           (List.range fuel).map (fun j => 2 ^ (rc + j + 1)) },
       some fallbackMsg) := by
  intro fuel
  induction fuel with
  | zero =>
    intro rc s
    simp only [chatLoop, List.range_zero, List.map_nil, List.append_nil,
      Nat.add_zero]
  | succ n ih =>
    intro rc s
    simp only [chatLoop, h]
    rw [ih (rc + 1)]
    refine congrArg (fun st => (st, some fallbackMsg)) ?_
    ext : 1
    · rfl
    · simp only []; omega
    · show s.waits ++ [2 ^ (rc + 1)] ++
        (List.range n).map (fun j => 2 ^ (rc + 1 + j + 1)) =
        s.waits ++ (List.range (n + 1)).map (fun j => 2 ^ (rc + j + 1))
      rw [List.range_succ_eq_map, List.map_cons, List.map_map,
        List.append_assoc]
      refine congrArg (fun l => s.waits ++ l) ?_
      refine congrArg₂ (fun x l => x :: l) (by norm_num) ?_
      refine List.map_congr_left ?_
      intro j hj
      show 2 ^ (rc + 1 + j + 1) = 2 ^ (rc + Nat.succ j + 1)
      congr 1
      omega
    · rfl

/-- Like `chatLoop_tool_round_rateLimit`, but the second model call times
out: the same turns and dispatches survive, the counter is incremented, and
no wait is recorded. -/
theorem chatLoop_tool_round_timeout (env : ChatEnv) (rc fuel : ℕ)
    (s : ChatState) (c : Option String) (tcs : List ToolCall)
    (h1 : env.oracle s.calls = .reply c tcs) (hne : tcs ≠ [])
    (hp : ∀ tc ∈ tcs, ∃ a, env.json_loads tc.arguments = .ok a)
    (h2 : env.oracle (s.calls + 1) = .timeout) :
    chatLoop env rc (fuel + 1) s =
      chatLoop env (rc + 1) fuel
        { s with
          history := s.history ++ Msg.assistantToolCalls c tcs ::
            tcs.map (toolTurnOf env),
          calls := s.calls + 2,
          dispatched := s.dispatched ++ tcs.map (dispatchOf env) } := by
  have hni : tcs.isEmpty = false := by
    cases tcs with
    | nil => exact absurd rfl hne
    | cons a l => rfl
  simp only [chatLoop, h1, hni, Bool.false_eq_true, if_false,
    processToolCalls_ok env tcs hp, h2]
  congr 1
  ext : 1 <;> simp

/-- When every model call times out, the loop burns its whole budget with no
sleeps at all. -/
theorem chatLoop_all_timeout (env : ChatEnv)
    (h : ∀ n, env.oracle n = .timeout) :
    ∀ fuel rc s, chatLoop env rc fuel s =
      ({ s with calls := s.calls + fuel }, some fallbackMsg) := by
  intro fuel
  induction fuel with
  | zero => intro rc s; simp only [chatLoop, Nat.add_zero]
  | succ n ih =>
    intro rc s
    simp only [chatLoop, h]
    rw [ih (rc + 1)]
    refine congrArg (fun st => (st, some fallbackMsg)) ?_
    ext : 1
    · rfl
    · simp only []; omega
    · rfl
    · rfl

theorem analyze_stock_behaviour_witness :
    analyze_stock noYfStockEnv "AAPL" "1mo" =
      mkErr "需要安装yfinance库：pip install yfinance" ∧
    analyze_stock testStockEnv "AAPL" "1mo" =
      mkOk (stockPayload testStockEnv "AAPL" "1mo" 2 1 4) := by
  constructor
  · exact (analyze_stock_behaviour noYfStockEnv "AAPL" "1mo").1 rfl
  · have h := ((analyze_stock_behaviour testStockEnv "AAPL" "1mo").2.2.2.2
      rfl rfl (by decide) (by simp [testStockEnv]) (by decide)).1
    exact h

/-- C1: for `max_retries ≥ 1`, if every model call is rate-limited the loop
makes exactly `max_retries` model-call attempts, sleeps `2 ^ k` time units
after the k-th failed attempt (so the recorded waits are strictly
increasing), and returns the fixed unable-to-complete message; if instead
every model call times out, the same shared counter is exhausted after
exactly `max_retries` attempts with no waits at all, ending in the same
message. -/
theorem retry_budget (mr : ℕ) (env1 env2 : ChatEnv) (u : String)
    (h0 : List Msg) (_hmr : 1 ≤ mr)
    (h1 : ∀ n, env1.oracle n = .rateLimit)
    (h2 : ∀ n, env2.oracle n = .timeout) :
    ((chat_with_function_calling env1 u mr h0).2 = some fallbackMsg ∧
     (chat_with_function_calling env1 u mr h0).1.calls = mr ∧
     (chat_with_function_calling env1 u mr h0).1.waits =
       (List.range mr).map (fun k => 2 ^ (k + 1)) ∧
     (chat_with_function_calling env1 u mr h0).1.waits.Chain' (· < ·)) ∧
    ((chat_with_function_calling env2 u mr h0).2 = some fallbackMsg ∧
     (chat_with_function_calling env2 u mr h0).1.calls = mr ∧
     (chat_with_function_calling env2 u mr h0).1.waits = []) := by
  have hch : ((List.range mr).map (fun k => 2 ^ (k + 1))).Chain' (· < ·) := by
    refine List.Pairwise.chain' ?_
    refine List.pairwise_map.mpr ?_
    refine (List.pairwise_lt_range mr).imp ?_
    intro a b hab
    exact Nat.pow_lt_pow_right one_lt_two (by omega)
  unfold chat_with_function_calling
  rw [chatLoop_all_rateLimit env1 h1 mr 0 (initState h0 u),
    chatLoop_all_timeout env2 h2 mr 0 (initState h0 u)]
  refine ⟨⟨rfl, by simp [initState], ?_, ?_⟩, rfl, by simp [initState], rfl⟩
  · simp [initState]
  · simpa [initState] using hch

theorem retry_budget_witness :
    (chat_with_function_calling (constOracleChatEnv .rateLimit) "你好" 3
      []).2 = some fallbackMsg ∧
    (chat_with_function_calling (constOracleChatEnv .rateLimit) "你好" 3
      []).1.calls = 3 ∧
    (chat_with_function_calling (constOracleChatEnv .rateLimit) "你好" 3
      []).1.waits = [2, 4, 8] ∧
    (chat_with_function_calling (constOracleChatEnv .timeout) "你好" 3
      []).2 = some fallbackMsg ∧
    (chat_with_function_calling (constOracleChatEnv .timeout) "你好" 3
      []).1.calls = 3 ∧
    (chat_with_function_calling (constOracleChatEnv .timeout) "你好" 3
      []).1.waits = [] := by
  have h := retry_budget 3 (constOracleChatEnv .rateLimit)
    (constOracleChatEnv .timeout) "你好" [] (by decide) (fun n => rfl)
    (fun n => rfl)
  refine ⟨h.1.1, h.1.2.1, ?_, h.2.1, h.2.2.1, h.2.2.2⟩
  rw [h.1.2.2.1]
  rfl

/-- C5: whenever a model call — the first, tool-offering call of any attempt
or the second, final-answer call after a dispatched batch — raises anything
other than the rate-limit or timeout signals, the loop aborts on that very
attempt with no further retry and no wait, returning the apology string
embedding the error cause; in particular a first-attempt generic failure
returns immediately after one call with only the user turn appended. -/
theorem generic_failure_aborts (env : ChatEnv) :
    (∀ rc fuel s e, env.oracle s.calls = .failure e →
      chatLoop env rc (fuel + 1) s =
        ({ s with calls := s.calls + 1 }, some (apologyMsg e))) ∧
    (∀ rc fuel s c tcs e, env.oracle s.calls = .reply c tcs → tcs ≠ [] →
      (∀ tc ∈ tcs, ∃ a, env.json_loads tc.arguments = .ok a) →
      env.oracle (s.calls + 1) = .failure e →
      chatLoop env rc (fuel + 1) s =
        ({ s with
           history := s.history ++ Msg.assistantToolCalls c tcs ::
             tcs.map (toolTurnOf env),
           calls := s.calls + 2,
           dispatched := s.dispatched ++ tcs.map (dispatchOf env) },
         some (apologyMsg e))) ∧
    (∀ u mr h0 e, 1 ≤ mr → env.oracle 0 = .failure e →
      chat_with_function_calling env u mr h0 =
        ({ history := h0 ++ [Msg.user u], calls := 1, waits := [],
           dispatched := [] }, some (apologyMsg e))) := by
  have hstep : ∀ rc fuel s e, env.oracle s.calls = .failure e →
      chatLoop env rc (fuel + 1) s =
        ({ s with calls := s.calls + 1 }, some (apologyMsg e)) := by
    intro rc fuel s e h
    simp only [chatLoop, h]
  refine ⟨hstep, ?_, ?_⟩
  · intro rc fuel s c tcs e h1 hne hp h2
    have hni : tcs.isEmpty = false := by
      cases tcs with
      | nil => exact absurd rfl hne
      | cons a l => rfl
    simp only [chatLoop, h1, hni, Bool.false_eq_true, if_false,
      processToolCalls_ok env tcs hp, h2]
    refine congrArg (fun st => (st, some (apologyMsg e))) ?_
    ext : 1 <;> simp
  · intro u mr h0 e hmr h
    obtain ⟨k, rfl⟩ : ∃ k, mr = k + 1 := ⟨mr - 1, by omega⟩
    unfold chat_with_function_calling
    rw [hstep 0 k (initState h0 u) e h]
    rfl

theorem generic_failure_aborts_witness :
    chat_with_function_calling (constOracleChatEnv (.failure "boom")) "你好"
        3 [] =
      ({ history := [Msg.user "你好"], calls := 1, waits := [],
         dispatched := [] }, some (apologyMsg "boom")) ∧
    chat_with_function_calling failAfterToolChatEnv "你好" 3 [] =
      ({ history := [Msg.user "你好",
           Msg.assistantToolCalls none [testToolCall],
           Msg.tool (mkOk .null) "call_1"],
         calls := 2, waits := [],
         dispatched := [("get_real_weather", testArgs)] },
       some (apologyMsg "boom")) :=
  ⟨(generic_failure_aborts (constOracleChatEnv (.failure "boom"))).2.2 "你好"
     3 [] "boom" (by decide) rfl,
   (generic_failure_aborts failAfterToolChatEnv).2.1 0 2
     (initState [] "你好") none [testToolCall] "boom" rfl (by simp)
     (fun tc h => ⟨testArgs, rfl⟩) rfl⟩

/-- C3: when the first model call requests exactly one tool invocation and
the second call succeeds with content, the history grows by exactly four
turns in order — user, assistant carrying the invocation verbatim (even with
absent content text), the tool-result turn bearing the invocation's id, the
final assistant turn — and the returned string is the final turn's
content. -/
theorem single_tool_round (env : ChatEnv) (u : String) (mr : ℕ)
    (h0 : List Msg) (c : Option String) (tc : ToolCall) (c2 : String)
    (tcs2 : List ToolCall) (args : Args) (hmr : 1 ≤ mr)
    (h1 : env.oracle 0 = .reply c [tc])
    (hload : env.json_loads tc.arguments = .ok args)
    (h2 : env.oracle 1 = .reply (some c2) tcs2) :
    chat_with_function_calling env u mr h0 =
      ({ history := h0 ++ [Msg.user u, Msg.assistantToolCalls c [tc],
           Msg.tool (execute_function_call env.bindings tc.name args) tc.id,
           Msg.assistant (some c2)],
         calls := 2, waits := [], dispatched := [(tc.name, args)] },
       some c2) := by
  obtain ⟨k, rfl⟩ : ∃ k, mr = k + 1 := ⟨mr - 1, by omega⟩
  unfold chat_with_function_calling
  have hp : ∀ tc' ∈ [tc], ∃ a, env.json_loads tc'.arguments = .ok a := by
    intro tc' h'
    rw [List.mem_singleton] at h'
    subst h'
    exact ⟨args, hload⟩
  rw [chatLoop_tool_round env 0 k (initState h0 u) c [tc] (some c2) tcs2 h1
    (by simp) hp h2]
  refine congrArg (fun st => (st, some c2)) ?_
  ext : 1 <;> simp [initState, toolTurnOf, dispatchOf, loadsD, hload]

theorem single_tool_round_witness :
    chat_with_function_calling toolRoundChatEnv "北京天气怎么样" 3 [] =
      ({ history := [Msg.user "北京天气怎么样",
           Msg.assistantToolCalls none [testToolCall],
           Msg.tool (mkOk .null) "call_1", Msg.assistant (some "完成")],
         calls := 2, waits := [],
         dispatched := [("get_real_weather", testArgs)] },
       some "完成") := by
  have h := single_tool_round toolRoundChatEnv "北京天气怎么样" 3 [] none
    testToolCall "完成" [] testArgs (by decide) rfl rfl rfl
  exact h

/-- C4: after one pass through the tool-dispatch path, the tool-result turns
appear immediately after the assistant turn that carries the batch, one per
invocation and in invocation order (each built from its own invocation, so
its `tool_call_id` is that invocation's id), and — the model-issued ids
being distinct — each such id matches exactly one entry of the preceding
assistant turn's `tool_calls`. -/
theorem tool_result_correlation (env : ChatEnv) (u : String) (mr : ℕ)
    (h0 : List Msg) (c c2 : Option String) (tcs tcs2 : List ToolCall)
    (hmr : 1 ≤ mr) (h1 : env.oracle 0 = .reply c tcs) (hne : tcs ≠ [])
    (hp : ∀ tc ∈ tcs, ∃ a, env.json_loads tc.arguments = .ok a)
    (h2 : env.oracle 1 = .reply c2 tcs2)
    (hnodup : (tcs.map ToolCall.id).Nodup) :
    (chat_with_function_calling env u mr h0).1.history =
      (h0 ++ [Msg.user u, Msg.assistantToolCalls c tcs]) ++
        tcs.map (toolTurnOf env) ++ [Msg.assistant c2] ∧
    (∀ tc, toolTurnOf env tc =
      Msg.tool (execute_function_call env.bindings tc.name (loadsD env tc))
        tc.id) ∧
    (∀ tc ∈ tcs, (tcs.map ToolCall.id).count tc.id = 1) := by
  obtain ⟨k, rfl⟩ : ∃ k, mr = k + 1 := ⟨mr - 1, by omega⟩
  refine ⟨?_, fun tc => rfl, ?_⟩
  · unfold chat_with_function_calling
    rw [chatLoop_tool_round env 0 k (initState h0 u) c tcs c2 tcs2 h1 hne hp
      h2]
    simp [initState]
  · intro tc htc
    exact List.count_eq_one_of_mem hnodup (List.mem_map_of_mem _ htc)

theorem tool_result_correlation_witness :
    (chat_with_function_calling toolRoundChatEnv "查天气" 3 []).1.history =
      (([] : List Msg) ++ [Msg.user "查天气",
         Msg.assistantToolCalls none [testToolCall]]) ++
        [testToolCall].map (toolTurnOf toolRoundChatEnv) ++
        [Msg.assistant (some "完成")] ∧
    (∀ tc, toolTurnOf toolRoundChatEnv tc =
      Msg.tool (execute_function_call toolRoundChatEnv.bindings tc.name
        (loadsD toolRoundChatEnv tc)) tc.id) ∧
    (∀ tc ∈ [testToolCall],
      ([testToolCall].map ToolCall.id).count tc.id = 1) :=
  tool_result_correlation toolRoundChatEnv "查天气" 3 [] none (some "完成")
    [testToolCall] [] (by decide) rfl (by simp)
    (fun tc h => ⟨testArgs, rfl⟩) rfl (by decide)

/-- C6: the retry region is not atomic — when the batch has been dispatched
and the second (final-answer) model call is rate-limited or times out, the
already-appended assistant and tool-result turns stay in the history, the
shared counter increments, and the next attempt re-runs from the first model
call: the batch is dispatched a second time (duplicating its external side
effects) and its turns are appended again. -/
theorem retry_not_atomic (env1 env2 : ChatEnv) (u : String) (mr : ℕ)
    (h0 : List Msg) (c c2 : Option String) (tcs tcs2 : List ToolCall)
    (hmr : 2 ≤ mr)
    (ha1 : env1.oracle 0 = .reply c tcs) (hne : tcs ≠ [])
    (hp1 : ∀ tc ∈ tcs, ∃ a, env1.json_loads tc.arguments = .ok a)
    (hrl : env1.oracle 1 = .rateLimit)
    (ha3 : env1.oracle 2 = .reply c tcs)
    (ha4 : env1.oracle 3 = .reply c2 tcs2)
    (hb1 : env2.oracle 0 = .reply c tcs)
    (hp2 : ∀ tc ∈ tcs, ∃ a, env2.json_loads tc.arguments = .ok a)
    (hto : env2.oracle 1 = .timeout)
    (hb3 : env2.oracle 2 = .reply c tcs)
    (hb4 : env2.oracle 3 = .reply c2 tcs2) :
    chat_with_function_calling env1 u mr h0 =
      ({ history := (h0 ++ [Msg.user u]) ++
           (Msg.assistantToolCalls c tcs :: tcs.map (toolTurnOf env1)) ++
           (Msg.assistantToolCalls c tcs ::
             (tcs.map (toolTurnOf env1) ++ [Msg.assistant c2])),
         calls := 4, waits := [2],
         dispatched := tcs.map (dispatchOf env1) ++
           tcs.map (dispatchOf env1) }, c2) ∧
    chat_with_function_calling env2 u mr h0 =
      ({ history := (h0 ++ [Msg.user u]) ++
           (Msg.assistantToolCalls c tcs :: tcs.map (toolTurnOf env2)) ++
           (Msg.assistantToolCalls c tcs ::
             (tcs.map (toolTurnOf env2) ++ [Msg.assistant c2])),
         calls := 4, waits := [],
         dispatched := tcs.map (dispatchOf env2) ++
           tcs.map (dispatchOf env2) }, c2) := by
  obtain ⟨k, rfl⟩ : ∃ k, mr = k + 2 := ⟨mr - 2, by omega⟩
  constructor
  · unfold chat_with_function_calling
    rw [chatLoop_tool_round_rateLimit env1 0 (k + 1) (initState h0 u) c tcs
      ha1 hne hp1 hrl]
    rw [chatLoop_tool_round env1 1 k _ c tcs c2 tcs2 ha3 hne hp1 ha4]
    refine congrArg (fun st => (st, c2)) ?_
    ext : 1 <;> simp [initState]
  · unfold chat_with_function_calling
    rw [chatLoop_tool_round_timeout env2 0 (k + 1) (initState h0 u) c tcs
      hb1 hne hp2 hto]
    rw [chatLoop_tool_round env2 1 k _ c tcs c2 tcs2 hb3 hne hp2 hb4]
    refine congrArg (fun st => (st, c2)) ?_
    ext : 1 <;> simp [initState]

theorem retry_not_atomic_witness :
    chat_with_function_calling retryRLChatEnv "发微信" 3 [] =
      ({ history := (([] : List Msg) ++ [Msg.user "发微信"]) ++
           (Msg.assistantToolCalls none [testToolCall] ::
             [testToolCall].map (toolTurnOf retryRLChatEnv)) ++
           (Msg.assistantToolCalls none [testToolCall] ::
             ([testToolCall].map (toolTurnOf retryRLChatEnv) ++
               [Msg.assistant (some "完成")])),
         calls := 4, waits := [2],
         dispatched := [testToolCall].map (dispatchOf retryRLChatEnv) ++
           [testToolCall].map (dispatchOf retryRLChatEnv) },
       some "完成") ∧
    chat_with_function_calling retryTOChatEnv "发微信" 3 [] =
      ({ history := (([] : List Msg) ++ [Msg.user "发微信"]) ++
           (Msg.assistantToolCalls none [testToolCall] ::
             [testToolCall].map (toolTurnOf retryTOChatEnv)) ++
           (Msg.assistantToolCalls none [testToolCall] ::
             ([testToolCall].map (toolTurnOf retryTOChatEnv) ++
               [Msg.assistant (some "完成")])),
         calls := 4, waits := [],
         dispatched := [testToolCall].map (dispatchOf retryTOChatEnv) ++
           [testToolCall].map (dispatchOf retryTOChatEnv) },
       some "完成") :=
  retry_not_atomic retryRLChatEnv retryTOChatEnv "发微信" 3 [] none
    (some "完成") [testToolCall] [] (by decide) rfl (by simp)
    (fun tc h => ⟨testArgs, rfl⟩) rfl rfl rfl rfl
    (fun tc h => ⟨testArgs, rfl⟩) rfl rfl rfl

end FnCall
